import Mathlib

set_option maxHeartbeats 1000000

/-!
Shallow embedding of `src/dq/dq_checks.py` (class `DataQualityChecker`):
the check dispatcher `_execute_pandas_check`, the verdict builder
`check_rule`, and the per-layer driver `run_checks`.

Modelling conventions:
* A pandas DataFrame cell that can be NaN is an `Option`; numeric cells are `ℚ`.
* Python `dict` access `d[k]` and the exceptions it raises are `Except String`;
  an error value `"KeyError: k"` stands for the Python `KeyError`.
* A rule record is a dict that may lack keys, hence every field is an `Option`;
  `rule.get(k, default)` is `Option.getD`.
* The dataset mapping built by `_load_data` is a list of present table names
  (`keys`) plus the contents of the three tables the checks ever read.
  Columns of `test_results` that no check reads (`process_step_name`,
  `equipment_id`, `end_time`, `bin_code`) are not modelled and are taken to be
  non-null where `dropna` is concerned.
* Timestamps (`start_time`) are already-parsed numeric instants in `ℚ`;
  `pd.to_datetime` is the identity on them.
-/

namespace DQ

/-- Python `pat in s` on strings (contiguous run containment), over char lists. -/
def listContainsRun (pat s : List Char) : Bool :=
  (List.range (s.length + 1)).any (fun i => (s.drop i).take pat.length == pat)

/-- Python `pat in s` for strings, as used on `rule['check_sql']`,
`rule['name']` and `rule.get('layer', 'staging')`. -/
def strIn (pat s : String) : Bool :=
  listContainsRun pat.toList s.toList

/-- pandas `Series.unique().tolist()`: distinct values in first-occurrence order. -/
def uniqueFirstAux {α : Type} [DecidableEq α] (seen : List α) : List α → List α
  | [] => []
  | x :: xs => if x ∈ seen then uniqueFirstAux seen xs else x :: uniqueFirstAux (x :: seen) xs

/-- pandas `Series.unique()` (first-occurrence order). -/
def uniqueFirst {α : Type} [DecidableEq α] (l : List α) : List α :=
  uniqueFirstAux [] l

/-- Stable insertion of `x` in front of the first element it is `le` to. -/
def sortInsert {α : Type} (le : α → α → Bool) (x : α) : List α → List α
  | [] => [x]
  | y :: ys => if le x y then x :: y :: ys else y :: sortInsert le x ys

/-- Stable sort by a total `le`, modelling `DataFrame.sort_values` /
`groupby(sort=True)` key ordering. -/
def sortBy {α : Type} (le : α → α → Bool) : List α → List α
  | [] => []
  | x :: xs => sortInsert le x (sortBy le xs)

/-- One row of the `test_results` table (columns the checks read). -/
structure TestRow where
  wafer_id : Option String
  batch_id : String
  process_step_id : Int
  start_time : Option ℚ
  pass_fail : Option String
  defect_density : ℚ
deriving DecidableEq, Repr

/-- One row of the `wafer_batches` table (column the checks read). -/
structure BatchRow where
  batch_id : String
deriving DecidableEq, Repr

/-- One row of the `equipment_logs` table (columns the checks read). -/
structure LogRow where
  equipment_id : Option String
  temperature_c : ℚ
  pressure_torr : ℚ
deriving DecidableEq, Repr

/-- The mapping table-name → DataFrame built by `_load_data`: `keys` lists the
names present in the dict; the three typed fields hold the contents of the
correspondingly named tables when their key is present. -/
structure Dataset where
  keys : List String
  test_results : List TestRow
  wafer_batches : List BatchRow
  equipment_logs : List LogRow
deriving Repr

/-- A rule record from the YAML catalog: a dict whose keys may be absent. -/
structure Rule where
  rule_id : Option String
  name : Option String
  category : Option String
  check_sql : Option String
  severity : Option String
  threshold : Option Int
  layer : Option String
  impact : Option String
deriving DecidableEq, Repr

/-- Python `rule[key]`: value when present, `KeyError` otherwise. -/
def pyGet {α : Type} (field : Option α) (key : String) : Except String α :=
  match field with
  | some v => Except.ok v
  | none => Except.error ("KeyError: " ++ key)

/-- Rendering of a possibly-NaN identifier cell into an example entry
(pandas `tolist()` renders NaN as `nan`). -/
def idStr : Option String → String
  | some s => s
  | none => "nan"

/-- The row predicate of the RANGE temperature check:
`(logs['temperature_c'] < -50) | (logs['temperature_c'] > 500)`. -/
def tempOutOfRange (x : ℚ) : Bool :=
  decide (x < -50) || decide (x > 500)

/-- Lexicographic `sort_values(['batch_id', 'process_step_id'])` order. -/
def testRowLe (a b : TestRow) : Bool :=
  decide (a.batch_id < b.batch_id) ||
    (a.batch_id == b.batch_id && decide (a.process_step_id ≤ b.process_step_id))

/-- Lexicographic order on `(batch_id, wafer_id)` group keys. -/
def pairLe (a b : String × String) : Bool :=
  decide (a.1 < b.1) || (a.1 == b.1 && decide (a.2 ≤ b.2))

/-- The per-batch yield of the RANGE yield check, the `agg` lambda
`(x == 'PASS').sum() / len(x) * 100` applied to the `pass_fail` values of the
rows grouped under batch `b`. -/
def batchYield (tests : List TestRow) (b : String) : ℚ :=
  let grp := tests.filter (fun t => t.batch_id == b)
  ((grp.filter (fun t => t.pass_fail == some "PASS")).length : ℚ) / (grp.length : ℚ) * 100

/-- `groupby('batch_id')['start_time'].shift(1)` on an already-sorted row list:
each row is paired with the start time of the nearest earlier row of the same
batch (an absent predecessor, or a predecessor with a NaN start time, gives
`none`, i.e. NaT). -/
def shiftPrevAux (lastOf : List (String × Option ℚ)) :
    List TestRow → List (TestRow × Option ℚ)
  | [] => []
  | r :: rs =>
    let prev := ((lastOf.find? (fun p => p.1 == r.batch_id)).map (·.2)).join
    (r, prev) :: shiftPrevAux ((r.batch_id, r.start_time) :: lastOf) rs

/-- The body of the `try:` block of `_execute_pandas_check`: dispatch on
`rule['category']` and substring tests on `rule['check_sql']`, returning
`(violations, violation_details)`.  Errors are the `KeyError`s the Python
body can raise (missing rule fields, `data['test_results']` when that key is
absent). -/
def checkBody (rule : Rule) (data : Dataset) : Except String (Int × List String) := do
  let category ← pyGet rule.category "category"
  let check_sql ← pyGet rule.check_sql "check_sql"
  if category = "REFERENTIAL_INTEGRITY" then
    if strIn "wafer_tests" check_sql && strIn "wafer_batches" check_sql then
      if data.keys.contains "wafer_tests" && data.keys.contains "wafer_batches" then do
        let tests ← if data.keys.contains "test_results" then pure data.test_results
                    else Except.error "KeyError: test_results"
        let batches := data.wafer_batches
        let unmatched := tests.filter
          (fun t => !(batches.any (fun b => b.batch_id == t.batch_id)))
        pure ((unmatched.length : Int),
              (uniqueFirst (unmatched.map (·.batch_id))).take 10)
      else pure (0, [])
    else pure (0, [])
  else if category = "RANGE" then
    if strIn "yield_pct" check_sql then
      if data.keys.contains "test_results" then
        let tests := data.test_results
        let batchIds := sortBy (fun a b => decide (a ≤ b))
          (uniqueFirst (tests.map (·.batch_id)))
        let invalid := batchIds.filter
          (fun b => decide (batchYield tests b < 0) || decide (batchYield tests b > 100))
        pure ((invalid.length : Int), invalid.take 10)
      else pure (0, [])
    else if strIn "defect_density" check_sql then
      if data.keys.contains "test_results" then
        let tests := data.test_results
        let invalid := tests.filter (fun t => decide (t.defect_density < 0))
        pure ((invalid.length : Int), (invalid.map (fun t => idStr t.wafer_id)).take 10)
      else pure (0, [])
    else if strIn "temperature" check_sql then
      if data.keys.contains "equipment_logs" then
        let logs := data.equipment_logs
        let invalid := logs.filter (fun r => tempOutOfRange r.temperature_c)
        pure ((invalid.length : Int),
              (uniqueFirst (invalid.map (fun r => idStr r.equipment_id))).take 10)
      else pure (0, [])
    else if strIn "pressure" check_sql then
      if data.keys.contains "equipment_logs" then
        let logs := data.equipment_logs
        let invalid := logs.filter
          (fun r => decide (r.pressure_torr < 1 / 1000) || decide (r.pressure_torr > 1000))
        pure ((invalid.length : Int), [])
      else pure (0, [])
    else pure (0, [])
  else if category = "COMPLETENESS" then
    if strIn "wafer_id" check_sql then
      if data.keys.contains "test_results" then
        let tests := data.test_results
        let violations := (tests.filter (fun t => t.wafer_id == none)).length
          + (tests.filter (fun t => t.wafer_id == some "")).length
        pure ((violations : Int), [])
      else pure (0, [])
    else if strIn "equipment_id" check_sql then
      if data.keys.contains "equipment_logs" then
        let logs := data.equipment_logs
        let violations := (logs.filter (fun r => r.equipment_id == none)).length
          + (logs.filter (fun r => r.equipment_id == some "")).length
        pure ((violations : Int), [])
      else pure (0, [])
    else if strIn "pass_fail" check_sql then
      if data.keys.contains "test_results" then
        let tests := data.test_results
        -- `isin(['PASS', 'FAIL'])` is false on NaN, so null rows are counted
        -- by both summands.
        let violations := (tests.filter (fun t => t.pass_fail == none)).length
          + (tests.filter
              (fun t => !([some "PASS", some "FAIL"].contains t.pass_fail))).length
        pure ((violations : Int), [])
      else pure (0, [])
    else pure (0, [])
  else if category = "UNIQUENESS" then
    if strIn "wafer_id" check_sql && strIn "batch_id" check_sql then
      if data.keys.contains "test_results" then
        let tests := data.test_results
        -- pandas `groupby` drops rows whose group key contains NaN and sorts
        -- the group keys.
        let keyed := tests.filter (fun t => !(t.wafer_id == none))
        let pairs := sortBy pairLe
          (uniqueFirst (keyed.map (fun t => (t.batch_id, idStr t.wafer_id))))
        let dups := pairs.filter (fun p =>
          (keyed.filter
            (fun t => t.batch_id == p.1 && idStr t.wafer_id == p.2)).length > 1)
        pure ((dups.length : Int), (dups.map (·.2)).take 10)
      else pure (0, [])
    else pure (0, [])
  else if category = "TEMPORAL" then
    if data.keys.contains "test_results" then do
      let nm ← pyGet rule.name "name"
      if strIn "Process Step Sequence" nm then
        let tests := data.test_results
        let tsorted := sortBy testRowLe tests
        let withPrev := shiftPrevAux [] tsorted
        -- `start_time < prev_time` is false when either is NaT; `.dropna()`
        -- then drops rows with a NaN in any (modelled) column.
        let invalid := withPrev.filter (fun pr =>
          (match pr.1.start_time, pr.2 with
           | some st, some pv => decide (st < pv)
           | _, _ => false)
          && !(pr.1.wafer_id == none) && !(pr.1.pass_fail == none))
        pure ((invalid.length : Int),
              (uniqueFirst (invalid.map (fun pr => pr.1.batch_id))).take 10)
      else pure (0, [])
    else pure (0, [])
  else
    pure (0, [])

/-- `_execute_pandas_check`: run the `try:` body; on an exception the handler
returns `(-1, ["Error: …"])` — but the handler itself interpolates
`rule['rule_id']`, which raises its own `KeyError` when that key is absent. -/
def execute_pandas_check (rule : Rule) (data : Dataset) :
    Except String (Int × List String) :=
  match checkBody rule data with
  | Except.ok r => Except.ok r
  | Except.error e =>
    match rule.rule_id with
    | some _ => Except.ok (-1, ["Error: " ++ e])
    | none => Except.error "KeyError: rule_id"

/-- The verdict record built by `check_rule`. -/
structure RuleResult where
  rule_id : String
  rule_name : String
  category : String
  severity : String
  status : String
  violations : Int
  threshold : Int
  impact : String
  details : List String
deriving DecidableEq, Repr

/-- `check_rule`: execute the check, derive the status from
`(violations, threshold, severity)`, and build the result record (whose
construction reads `rule_id`, `name`, `category` and `severity` again,
raising `KeyError` on an absent key). -/
def check_rule (rule : Rule) (data : Dataset) : Except String RuleResult := do
  let vd ← execute_pandas_check rule data
  let violations := vd.1
  let details := vd.2
  let threshold := rule.threshold.getD 0
  let status ←
    if violations = -1 then pure "ERROR"
    else if violations ≤ threshold then pure "PASS"
    else do
      let sev ← pyGet rule.severity "severity"
      pure (if sev = "CRITICAL" then "FAIL"
            else if sev = "HIGH" then "FAIL"
            else if sev = "MEDIUM" then "WARNING"
            else "WARNING")
  let rid ← pyGet rule.rule_id "rule_id"
  let rname ← pyGet rule.name "name"
  let rcat ← pyGet rule.category "category"
  let rsev ← pyGet rule.severity "severity"
  pure { rule_id := rid, rule_name := rname, category := rcat, severity := rsev,
         status := status, violations := violations, threshold := threshold,
         impact := rule.impact.getD "N/A",
         details := if details.isEmpty then [] else details.take 5 }

/-- The rule loop of `run_checks`: keep the rules whose
`rule.get('layer', 'staging')` contains the requested layer as a substring;
the progress line reads `rule['rule_id']` and `rule['name']` before the check
runs, so an absent key aborts the loop there. -/
def run_checks_loop (layer : String) (data : Dataset) :
    List Rule → Except String (List RuleResult)
  | [] => Except.ok []
  | rule :: rest =>
    if strIn layer (rule.layer.getD "staging") then do
      let _ ← pyGet rule.rule_id "rule_id"
      let _ ← pyGet rule.name "name"
      let r ← check_rule rule data
      let rs ← run_checks_loop layer data rest
      pure (r :: rs)
    else run_checks_loop layer data rest

/-- `run_checks`: an empty dataset mapping short-circuits to `None`
("no data found"); otherwise every applicable rule is evaluated in catalog
order and the list of verdicts is returned. -/
def run_checks (rules : List Rule) (layer : String) (data : Dataset) :
    Except String (Option (List RuleResult)) :=
  if data.keys.isEmpty then Except.ok none
  else (run_checks_loop layer data rules).map some

/-- The verdict policy exactly as the specification words it:
ERROR on the −1 sentinel, else PASS at or under threshold, else FAIL for
CRITICAL/HIGH severity, else WARNING. -/
def specStatus (violation_count threshold : Int) (severity : String) : String :=
  if violation_count = -1 then "ERROR"
  else if violation_count ≤ threshold then "PASS"
  else if severity = "CRITICAL" ∨ severity = "HIGH" then "FAIL"
  else "WARNING"

/-- The status chain of `check_rule`, isolated as a closed function of
`(violations, threshold, severity)`. -/
def codeStatus (v th : Int) (sev : String) : String :=
  if v = -1 then "ERROR"
  else if v ≤ th then "PASS"
  else if sev = "CRITICAL" then "FAIL"
  else if sev = "HIGH" then "FAIL"
  else if sev = "MEDIUM" then "WARNING"
  else "WARNING"

/-! Concrete fixtures used by witnesses and counterexamples. -/

/-- Fixture: a RANGE temperature rule (its query text mentions `temperature`
but neither `yield_pct` nor `defect_density`). -/
def wTempRule : Rule :=
  { rule_id := some "DQ005", name := some "Temperature Range",
    category := some "RANGE",
    check_sql := some "SELECT * FROM equipment_logs WHERE temperature_c < -50 OR temperature_c > 500",
    severity := some "HIGH", threshold := none,
    layer := some "raw,staging", impact := some "Sensor malfunction" }

/-- Fixture: equipment logs with both temperature boundary values and both
just-outside values (the two offenders share one equipment id). -/
def wLogs : List LogRow :=
  [⟨some "EQ1", -50, 1⟩, ⟨some "EQ2", 500, 1⟩,
   ⟨some "EQ3", mkRat (-50000001) 1000000, 1⟩,
   ⟨some "EQ3", mkRat 500000001 1000000, 1⟩]

/-- Fixture: a dataset mapping holding only `equipment_logs`. -/
def wLogsData : Dataset := ⟨["equipment_logs"], [], [], wLogs⟩

/-- The verdict `check_rule` produces for `wTempRule` on `wLogsData`. -/
def wTempRes : RuleResult :=
  { rule_id := "DQ005", rule_name := "Temperature Range", category := "RANGE",
    severity := "HIGH", status := "FAIL", violations := 2, threshold := 0,
    impact := "Sensor malfunction", details := ["EQ3"] }

/-- Fixture: a dataset mapping that has a `test_results` table but no
`equipment_logs` table. -/
def c2Data : Dataset := ⟨["test_results"], [], [], []⟩

/-- The verdict `check_rule` produces for `wTempRule` on `c2Data`. -/
def c2Res : RuleResult :=
  { rule_id := "DQ005", rule_name := "Temperature Range", category := "RANGE",
    severity := "HIGH", status := "PASS", violations := 0, threshold := 0,
    impact := "Sensor malfunction", details := [] }

/-- Fixture: a nonempty dataset mapping containing none of the tables the
checks read from (`test_results`, `equipment_logs`) nor `wafer_tests`. -/
def c2NoTables : Dataset := ⟨["wafer_batches"], [], [⟨"B1"⟩], []⟩

/-- Fixture: a malformed rule record (no `severity`) scoped to the
`curated` layer. -/
def c3Bad : Rule :=
  { rule_id := some "DQ900", name := some "Broken Rule",
    category := some "RANGE", check_sql := some "SELECT 1",
    severity := none, threshold := none, layer := some "curated", impact := none }

/-- Fixture: the same malformed rule record scoped to the `raw` layer. -/
def c3Bad2 : Rule :=
  { rule_id := some "DQ900", name := some "Broken Rule",
    category := some "RANGE", check_sql := some "SELECT 1",
    severity := none, threshold := none, layer := some "raw", impact := none }

/-- Fixture: the referential-integrity rule, whose query text mentions
`wafer_tests` and `wafer_batches`. -/
def wRefRule : Rule :=
  { rule_id := some "DQ001", name := some "Wafer Batch Integrity",
    category := some "REFERENTIAL_INTEGRITY",
    check_sql := some "SELECT t.batch_id FROM wafer_tests t LEFT JOIN wafer_batches b ON t.batch_id = b.batch_id WHERE b.batch_id IS NULL",
    severity := some "CRITICAL", threshold := none,
    layer := some "raw", impact := some "Orphaned tests" }

/-- Fixture: a mapping with `wafer_tests` and `wafer_batches` keys but no
`test_results` key, on which the referential check raises `KeyError`. -/
def wRefErrData : Dataset := ⟨["wafer_tests", "wafer_batches"], [], [⟨"B1"⟩], []⟩

/-- Fixture: the completeness rule on `pass_fail` (its query text mentions
`pass_fail` and `test_results` but neither `wafer_id` nor `equipment_id`). -/
def c5Rule : Rule :=
  { rule_id := some "DQ003", name := some "PassFail Completeness",
    category := some "COMPLETENESS",
    check_sql := some "SELECT count(1) FROM test_results WHERE pass_fail IS NULL",
    severity := some "MEDIUM", threshold := none,
    layer := some "raw", impact := some "Broken yield metrics" }

/-- A `test_results` row with the given `pass_fail` cell. -/
def mkPF (pf : Option String) : TestRow := ⟨some "W01", "B000001", 1, none, pf, 0⟩

/-- Fixture: 3 null `pass_fail` rows, 2 `MAYBE` rows, 3 PASS/FAIL rows. -/
def c5Tests : List TestRow :=
  [mkPF none, mkPF none, mkPF none, mkPF (some "MAYBE"), mkPF (some "MAYBE"),
   mkPF (some "PASS"), mkPF (some "FAIL"), mkPF (some "PASS")]

/-- Fixture: dataset mapping holding the `c5Tests` table. -/
def c5Data : Dataset := ⟨["test_results"], c5Tests, [], []⟩

/-- Fixture: mapping with all three keys the referential check consults;
`test_results` has one matched row and three rows (two distinct ids) whose
batch has no `wafer_batches` row. -/
def c8Data : Dataset :=
  ⟨["wafer_tests", "wafer_batches", "test_results"],
   [⟨some "W01", "B000001", 1, none, some "PASS", 0⟩,
    ⟨some "W02", "B000009", 1, none, some "PASS", 0⟩,
    ⟨some "W03", "B000009", 1, none, some "FAIL", 0⟩,
    ⟨some "W04", "B000008", 1, none, some "PASS", 0⟩],
   [⟨"B000001"⟩], []⟩

/-- Fixture: the defect-density rule (query text mentions `defect_density`,
not `yield_pct`). -/
def c9Rule : Rule :=
  { rule_id := some "DQ004", name := some "Defect Density Range",
    category := some "RANGE",
    check_sql := some "SELECT wafer_id FROM test_results WHERE defect_density < 0",
    severity := some "HIGH", threshold := none,
    layer := some "raw", impact := some "Invalid defect data" }

/-- A violating `test_results` row (negative defect density) for wafer `w`. -/
def c9Row (w : String) : TestRow := ⟨some w, "B000001", 1, none, some "FAIL", -1⟩

/-- Fixture: 12 violating rows whose first two share a wafer id. -/
def c9Tests : List TestRow :=
  [c9Row "W01", c9Row "W01", c9Row "W02", c9Row "W03", c9Row "W04", c9Row "W05",
   c9Row "W06", c9Row "W07", c9Row "W08", c9Row "W09", c9Row "W10", c9Row "W11"]

/-- Fixture: dataset mapping holding the `c9Tests` table. -/
def c9Data : Dataset := ⟨["test_results"], c9Tests, [], []⟩

/-- The example list the defect-density check collects on `c9Data`:
the first ten wafer ids, with a duplicate. -/
def c9Details : List String :=
  ["W01", "W01", "W02", "W03", "W04", "W05", "W06", "W07", "W08", "W09"]

/-- The verdict `check_rule` produces for `c9Rule` on `c9Data`. -/
def c9Res : RuleResult :=
  { rule_id := "DQ004", rule_name := "Defect Density Range", category := "RANGE",
    severity := "HIGH", status := "FAIL", violations := 12, threshold := 0,
    impact := "Invalid defect data",
    details := ["W01", "W01", "W02", "W03", "W04"] }

/-- Fixture: the batch-yield RANGE rule (query text mentions `yield_pct`). -/
def c10Rule : Rule :=
  { rule_id := some "DQ002", name := some "Batch Yield Bounds",
    category := some "RANGE",
    check_sql := some "SELECT batch_id FROM batch_yield WHERE yield_pct < 0 OR yield_pct > 100",
    severity := some "CRITICAL", threshold := none,
    layer := some "raw", impact := some "Impossible yield" }

/-- Fixture: an entirely empty dataset mapping (missing layer directory). -/
def emptyData : Dataset := ⟨[], [], [], []⟩

/-- The table a recognized check reads, transcribed from the dispatch of
`_execute_pandas_check`: `some tbl` when the rule's `(category, check_sql)`
pair resolves to an implemented check and that check reads table `tbl` from
the mapping, `none` when the rule matches no implemented check.  The
referential-integrity check reads `test_results` (the wafer_tests aliasing)
but additionally guards on the `wafer_tests` / `wafer_batches` keys. -/
def requiredTable (cat q : String) : Option String :=
  if cat = "REFERENTIAL_INTEGRITY" then
    if strIn "wafer_tests" q && strIn "wafer_batches" q then some "test_results" else none
  else if cat = "RANGE" then
    if strIn "yield_pct" q then some "test_results"
    else if strIn "defect_density" q then some "test_results"
    else if strIn "temperature" q then some "equipment_logs"
    else if strIn "pressure" q then some "equipment_logs"
    else none
  else if cat = "COMPLETENESS" then
    if strIn "wafer_id" q then some "test_results"
    else if strIn "equipment_id" q then some "equipment_logs"
    else if strIn "pass_fail" q then some "test_results"
    else none
  else if cat = "UNIQUENESS" then
    if strIn "wafer_id" q && strIn "batch_id" q then some "test_results" else none
  else if cat = "TEMPORAL" then some "test_results"
  else none

/-! Helper lemmas about `check_rule` and `run_checks`. -/

theorem check_rule_closed (rule : Rule) (data : Dataset) (v : Int) (d : List String)
    (rid nm cat sev : String)
    (hx : execute_pandas_check rule data = Except.ok (v, d))
    (hrid : rule.rule_id = some rid) (hnm : rule.name = some nm)
    (hcat : rule.category = some cat) (hsev : rule.severity = some sev) :
    check_rule rule data = Except.ok
      { rule_id := rid, rule_name := nm, category := cat, severity := sev,
        status := codeStatus v (rule.threshold.getD 0) sev,
        violations := v, threshold := rule.threshold.getD 0,
        impact := rule.impact.getD "N/A",
        details := if d.isEmpty then [] else d.take 5 } := by
  unfold check_rule codeStatus
  rw [hx]
  simp only [Except.bind, pyGet, hrid, hnm, hcat, hsev, bind, pure, Except.pure]
  split
  · rfl
  · split
    · rfl
    · rfl

theorem execute_total (rule : Rule) (data : Dataset) (hrid : rule.rule_id.isSome) :
    ∃ v d, execute_pandas_check rule data = Except.ok (v, d) := by
  unfold execute_pandas_check
  cases hx : checkBody rule data with
  | ok r => exact ⟨r.1, r.2, rfl⟩
  | error e =>
    cases hrid' : rule.rule_id with
    | none => rw [hrid'] at hrid; cases hrid
    | some rid => exact ⟨-1, ["Error: " ++ e], rfl⟩

theorem check_rule_total (rule : Rule) (data : Dataset)
    (hrid : rule.rule_id.isSome) (hnm : rule.name.isSome)
    (hcat : rule.category.isSome) (hsev : rule.severity.isSome) :
    ∃ res, check_rule rule data = Except.ok res := by
  obtain ⟨v, d, hx⟩ := execute_total rule data hrid
  obtain ⟨rid, hrid'⟩ := Option.isSome_iff_exists.mp hrid
  obtain ⟨nm, hnm'⟩ := Option.isSome_iff_exists.mp hnm
  obtain ⟨cat, hcat'⟩ := Option.isSome_iff_exists.mp hcat
  obtain ⟨sev, hsev'⟩ := Option.isSome_iff_exists.mp hsev
  exact ⟨_, check_rule_closed rule data v d rid nm cat sev hx hrid' hnm' hcat' hsev'⟩

theorem run_checks_loop_total (layer : String) (data : Dataset) (rules : List Rule)
    (hfields : ∀ r ∈ rules,
      r.rule_id.isSome ∧ r.name.isSome ∧ r.category.isSome ∧ r.severity.isSome) :
    ∃ results, run_checks_loop layer data rules = Except.ok results ∧
      results.length = (rules.filter (fun r => strIn layer (r.layer.getD "staging"))).length := by
  induction rules with
  | nil => exact ⟨[], rfl, rfl⟩
  | cons rule rest ih =>
    obtain ⟨hrid, hnm, hcat, hsev⟩ := hfields rule (List.mem_cons_self rule rest)
    obtain ⟨results, hres, hlen⟩ := ih (fun r hr => hfields r (List.mem_cons_of_mem rule hr))
    obtain ⟨res, hcr⟩ := check_rule_total rule data hrid hnm hcat hsev
    obtain ⟨rid, hrid'⟩ := Option.isSome_iff_exists.mp hrid
    obtain ⟨nm, hnm'⟩ := Option.isSome_iff_exists.mp hnm
    by_cases hl : strIn layer (rule.layer.getD "staging") = true
    · refine ⟨res :: results, ?_, ?_⟩
      · simp only [run_checks_loop, hl, if_true]
        simp [pyGet, hrid', hnm', hcr, hres, bind, Except.bind, pure, Except.pure]
      · simp [List.filter_cons, hl, hlen]
    · refine ⟨results, ?_, ?_⟩
      · simp only [run_checks_loop, hl, if_false]
        exact hres
      · simp [List.filter_cons, hl, hlen]

theorem check_rule_inv (rule : Rule) (data : Dataset) (res : RuleResult)
    (h : check_rule rule data = Except.ok res) :
    ∃ v d rid nm cat sev,
      execute_pandas_check rule data = Except.ok (v, d) ∧
      rule.rule_id = some rid ∧ rule.name = some nm ∧
      rule.category = some cat ∧ rule.severity = some sev ∧
      res = { rule_id := rid, rule_name := nm, category := cat, severity := sev,
              status := codeStatus v (rule.threshold.getD 0) sev,
              violations := v, threshold := rule.threshold.getD 0,
              impact := rule.impact.getD "N/A",
              details := if d.isEmpty then [] else d.take 5 } := by
  cases hx : execute_pandas_check rule data with
  | error e =>
    unfold check_rule at h
    rw [hx] at h
    cases h
  | ok vd =>
    obtain ⟨v, d⟩ := vd
    unfold check_rule at h
    rw [hx] at h
    cases hrid : rule.rule_id <;> cases hnm : rule.name <;>
      cases hcat : rule.category <;> cases hsev : rule.severity <;>
      simp only [hrid, hnm, hcat, hsev, pyGet, bind, Except.bind, pure, Except.pure] at h <;>
      (repeat' split at h) <;>
      (try cases h) <;>
      (refine ⟨v, d, _, _, _, _, rfl, rfl, rfl, rfl, rfl, ?_⟩
       simp_all [codeStatus]
       try rw [if_neg (by omega)])

theorem codeStatus_eq_specStatus (v th : Int) (sev : String) :
    codeStatus v th sev = specStatus v th sev := by
  unfold codeStatus specStatus
  split
  · rfl
  · split
    · rfl
    · by_cases h1 : sev = "CRITICAL"
      · simp [h1]
      · by_cases h2 : sev = "HIGH" <;> simp [h1, h2]

theorem codeStatus_cases (v th : Int) (sev : String) :
    codeStatus v th sev = "ERROR" ∨ codeStatus v th sev = "PASS" ∨
    codeStatus v th sev = "FAIL" ∨ codeStatus v th sev = "WARNING" := by
  unfold codeStatus
  repeat' split
  all_goals simp

/-- C1: every verdict `check_rule` produces carries a status that is the pure
function of `(violation_count, threshold, severity)` computed in the spec's
fixed order (−1 ↦ ERROR first, then ≤ threshold ↦ PASS, then CRITICAL/HIGH ↦
FAIL, anything else ↦ WARNING); no status outside these four is ever produced,
and −1 maps to ERROR regardless of threshold and severity. -/
theorem C1_status_policy (rule : Rule) (data : Dataset) (res : RuleResult)
    (h : check_rule rule data = Except.ok res) :
    res.status = specStatus res.violations res.threshold res.severity ∧
    (res.status = "ERROR" ∨ res.status = "PASS" ∨
      res.status = "FAIL" ∨ res.status = "WARNING") ∧
    (res.violations = -1 → res.status = "ERROR") := by
  obtain ⟨v, d, rid, nm, cat, sev, hx, hrid, hnm, hcat, hsev, hres⟩ :=
    check_rule_inv rule data res h
  subst hres
  refine ⟨codeStatus_eq_specStatus v (rule.threshold.getD 0) sev,
          codeStatus_cases v (rule.threshold.getD 0) sev, ?_⟩
  intro hv
  show codeStatus v (rule.threshold.getD 0) sev = "ERROR"
  unfold codeStatus
  rw [if_pos hv]

/-- Witness for C1 at a concrete rule and dataset (temperature rule, two
out-of-range rows, severity HIGH, threshold 0, status FAIL). -/
theorem C1_status_policy_witness :
    wTempRes.status = specStatus wTempRes.violations wTempRes.threshold wTempRes.severity ∧
    (wTempRes.status = "ERROR" ∨ wTempRes.status = "PASS" ∨
      wTempRes.status = "FAIL" ∨ wTempRes.status = "WARNING") ∧
    (wTempRes.violations = -1 → wTempRes.status = "ERROR") :=
  C1_status_policy wTempRule wLogsData wTempRes (by rfl)

/-- C4: a rule whose check raises during evaluation is recovered locally —
its verdict carries `violations = -1`, status ERROR and the diagnostic string
as its single example — and the run still evaluates every applicable rule:
`run_checks` returns one verdict per applicable rule, so no exception crosses
a rule boundary (given rule records with their required fields present). -/
theorem C4_isolated_failure (rules : List Rule) (layer : String) (data : Dataset)
    (hfields : ∀ r ∈ rules,
      r.rule_id.isSome ∧ r.name.isSome ∧ r.category.isSome ∧ r.severity.isSome)
    (hk : data.keys.isEmpty = false) :
    (∃ results, run_checks rules layer data = Except.ok (some results) ∧
      results.length =
        (rules.filter (fun r => strIn layer (r.layer.getD "staging"))).length) ∧
    (∀ r ∈ rules, ∀ e, checkBody r data = Except.error e →
      ∃ res, check_rule r data = Except.ok res ∧ res.violations = -1 ∧
        res.status = "ERROR" ∧ res.details = ["Error: " ++ e]) := by
  constructor
  · obtain ⟨results, hres, hlen⟩ := run_checks_loop_total layer data rules hfields
    refine ⟨results, ?_, hlen⟩
    unfold run_checks
    rw [hk]
    simp [hres, Except.map]
  · intro r hr e he
    obtain ⟨hrid, hnm, hcat, hsev⟩ := hfields r hr
    obtain ⟨rid, hrid'⟩ := Option.isSome_iff_exists.mp hrid
    obtain ⟨nm, hnm'⟩ := Option.isSome_iff_exists.mp hnm
    obtain ⟨cat, hcat'⟩ := Option.isSome_iff_exists.mp hcat
    obtain ⟨sev, hsev'⟩ := Option.isSome_iff_exists.mp hsev
    have hx : execute_pandas_check r data = Except.ok (-1, ["Error: " ++ e]) := by
      unfold execute_pandas_check
      rw [he, hrid']
    refine ⟨_, check_rule_closed r data (-1) ["Error: " ++ e] rid nm cat sev
      hx hrid' hnm' hcat' hsev', rfl, ?_, rfl⟩
    show codeStatus (-1) (r.threshold.getD 0) sev = "ERROR"
    unfold codeStatus
    rw [if_pos rfl]

/-- Witness for C4: a catalog of one well-formed referential-integrity rule
run against a mapping that makes its check raise `KeyError: test_results`. -/
theorem C4_isolated_failure_witness :
    (∃ results, run_checks [wRefRule] "raw" wRefErrData = Except.ok (some results) ∧
      results.length =
        ([wRefRule].filter (fun r => strIn "raw" (r.layer.getD "staging"))).length) ∧
    (∀ r ∈ [wRefRule], ∀ e, checkBody r wRefErrData = Except.error e →
      ∃ res, check_rule r wRefErrData = Except.ok res ∧ res.violations = -1 ∧
        res.status = "ERROR" ∧ res.details = ["Error: " ++ e]) :=
  C4_isolated_failure [wRefRule] "raw" wRefErrData (by decide) (by decide)

/-- C7: a requested layer whose dataset mapping is empty makes `run_checks`
return the `none` ("no data") signal without evaluating any rule, and that
signal is distinguishable from any returned report, in particular one where
all rules passed. -/
theorem C7_empty_layer (rules : List Rule) (layer : String) (data : Dataset)
    (h : data.keys = []) :
    run_checks rules layer data = Except.ok none ∧
    ∀ results : List RuleResult,
      (Except.ok (some results) : Except String (Option (List RuleResult))) ≠
        Except.ok none := by
  constructor
  · unfold run_checks
    rw [h]
    rfl
  · intro results hcon
    simp at hcon

/-- Witness for C7 at a concrete empty mapping and a nonempty rule list. -/
theorem C7_empty_layer_witness :
    run_checks [wTempRule] "raw" emptyData = Except.ok none ∧
    ∀ results : List RuleResult,
      (Except.ok (some results) : Except String (Option (List RuleResult))) ≠
        Except.ok none :=
  C7_empty_layer [wTempRule] "raw" emptyData rfl


theorem checkBody_temperature (rule : Rule) (data : Dataset) (q : String)
    (hcat : rule.category = some "RANGE") (hq : rule.check_sql = some q)
    (h1 : strIn "yield_pct" q = false) (h2 : strIn "defect_density" q = false)
    (h3 : strIn "temperature" q = true)
    (hk : data.keys.contains "equipment_logs" = true) :
    checkBody rule data = Except.ok
      (((data.equipment_logs.filter (fun r => tempOutOfRange r.temperature_c)).length : Int),
       (uniqueFirst ((data.equipment_logs.filter (fun r => tempOutOfRange r.temperature_c)).map
          (fun r => idStr r.equipment_id))).take 10) := by
  unfold checkBody
  rw [hcat, hq]
  have hk' : "equipment_logs" ∈ data.keys := by simpa using hk
  simp [pyGet, bind, Except.bind, pure, Except.pure, h1, h2, h3, hk']

theorem checkBody_referential (rule : Rule) (data : Dataset) (q : String)
    (hcat : rule.category = some "REFERENTIAL_INTEGRITY") (hq : rule.check_sql = some q)
    (h1 : strIn "wafer_tests" q = true) (h2 : strIn "wafer_batches" q = true)
    (hk1 : data.keys.contains "wafer_tests" = true)
    (hk2 : data.keys.contains "wafer_batches" = true)
    (hk3 : data.keys.contains "test_results" = true) :
    checkBody rule data = Except.ok
      (((data.test_results.filter (fun t =>
          !(data.wafer_batches.any (fun b => b.batch_id == t.batch_id)))).length : Int),
       (uniqueFirst ((data.test_results.filter (fun t =>
          !(data.wafer_batches.any (fun b => b.batch_id == t.batch_id)))).map
            (·.batch_id))).take 10) := by
  unfold checkBody
  rw [hcat, hq]
  have hk1' : "wafer_tests" ∈ data.keys := by simpa using hk1
  have hk2' : "wafer_batches" ∈ data.keys := by simpa using hk2
  have hk3' : "test_results" ∈ data.keys := by simpa using hk3
  simp [pyGet, bind, Except.bind, pure, Except.pure, h1, h2, hk1', hk2', hk3']

theorem checkBody_yield (rule : Rule) (data : Dataset) (q : String)
    (hcat : rule.category = some "RANGE") (hq : rule.check_sql = some q)
    (hy : strIn "yield_pct" q = true)
    (hk : data.keys.contains "test_results" = true) :
    checkBody rule data = Except.ok
      ((((sortBy (fun a b => decide (a ≤ b))
            (uniqueFirst (data.test_results.map (·.batch_id)))).filter
          (fun b => decide (batchYield data.test_results b < 0) ||
            decide (batchYield data.test_results b > 100))).length : Int),
       ((sortBy (fun a b => decide (a ≤ b))
            (uniqueFirst (data.test_results.map (·.batch_id)))).filter
          (fun b => decide (batchYield data.test_results b < 0) ||
            decide (batchYield data.test_results b > 100))).take 10) := by
  unfold checkBody
  rw [hcat, hq]
  have hk' : "test_results" ∈ data.keys := by simpa using hk
  simp [pyGet, bind, Except.bind, pure, Except.pure, hy, hk']

theorem checkBody_passfail (rule : Rule) (data : Dataset) (q : String)
    (hcat : rule.category = some "COMPLETENESS") (hq : rule.check_sql = some q)
    (h1 : strIn "wafer_id" q = false) (h2 : strIn "equipment_id" q = false)
    (h3 : strIn "pass_fail" q = true)
    (hk : data.keys.contains "test_results" = true) :
    checkBody rule data = Except.ok
      ((((data.test_results.filter (fun t => t.pass_fail == none)).length
          + (data.test_results.filter
              (fun t => !([some "PASS", some "FAIL"].contains t.pass_fail))).length : ℕ) : Int),
       []) := by
  unfold checkBody
  rw [hcat, hq]
  have hk' : "test_results" ∈ data.keys := by simpa using hk
  simp [pyGet, bind, Except.bind, pure, Except.pure, h1, h2, h3, hk']

theorem checkBody_noop_of_no_tables (rule : Rule) (data : Dataset) (cat q : String)
    (hcat : rule.category = some cat) (hq : rule.check_sql = some q)
    (hk1 : data.keys.contains "test_results" = false)
    (hk2 : data.keys.contains "equipment_logs" = false)
    (hk3 : data.keys.contains "wafer_tests" = false) :
    checkBody rule data = Except.ok (0, []) := by
  unfold checkBody
  rw [hcat, hq]
  have hk1' : "test_results" ∉ data.keys := by simpa using hk1
  have hk2' : "equipment_logs" ∉ data.keys := by simpa using hk2
  have hk3' : "wafer_tests" ∉ data.keys := by simpa using hk3
  simp only [pyGet, bind, Except.bind, pure, Except.pure]
  repeat' split
  all_goals simp_all

theorem checkBody_ref_noop (rule : Rule) (data : Dataset) (q : String)
    (hcat : rule.category = some "REFERENTIAL_INTEGRITY") (hq : rule.check_sql = some q)
    (hg : (data.keys.contains "wafer_tests" && data.keys.contains "wafer_batches") = false) :
    checkBody rule data = Except.ok (0, []) := by
  unfold checkBody
  rw [hcat, hq]
  simp only [pyGet, bind, Except.bind, pure, Except.pure]
  rw [if_pos trivial]
  split
  · simp_all
  · rfl

theorem checkBody_range_noop (rule : Rule) (data : Dataset) (q tbl : String)
    (hcat : rule.category = some "RANGE") (hq : rule.check_sql = some q)
    (hreq : (if strIn "yield_pct" q then some "test_results"
             else if strIn "defect_density" q then some "test_results"
             else if strIn "temperature" q then some "equipment_logs"
             else if strIn "pressure" q then some "equipment_logs"
             else (none : Option String)) = some tbl)
    (habs : data.keys.contains tbl = false) :
    checkBody rule data = Except.ok (0, []) := by
  unfold checkBody
  rw [hcat, hq]
  simp only [pyGet, bind, Except.bind, pure, Except.pure]
  rw [if_neg (by decide), if_pos trivial]
  repeat' split at hreq
  all_goals (try cases hreq)
  all_goals simp_all

theorem checkBody_completeness_noop (rule : Rule) (data : Dataset) (q tbl : String)
    (hcat : rule.category = some "COMPLETENESS") (hq : rule.check_sql = some q)
    (hreq : (if strIn "wafer_id" q then some "test_results"
             else if strIn "equipment_id" q then some "equipment_logs"
             else if strIn "pass_fail" q then some "test_results"
             else (none : Option String)) = some tbl)
    (habs : data.keys.contains tbl = false) :
    checkBody rule data = Except.ok (0, []) := by
  unfold checkBody
  rw [hcat, hq]
  simp only [pyGet, bind, Except.bind, pure, Except.pure]
  rw [if_neg (by decide), if_neg (by decide), if_pos trivial]
  repeat' split at hreq
  all_goals (try cases hreq)
  all_goals simp_all

theorem checkBody_uniqueness_noop (rule : Rule) (data : Dataset) (q : String)
    (hcat : rule.category = some "UNIQUENESS") (hq : rule.check_sql = some q)
    (habs : data.keys.contains "test_results" = false) :
    checkBody rule data = Except.ok (0, []) := by
  unfold checkBody
  rw [hcat, hq]
  simp only [pyGet, bind, Except.bind, pure, Except.pure]
  rw [if_neg (by decide), if_neg (by decide), if_neg (by decide), if_pos trivial]
  split
  · simp_all
  · rfl

theorem checkBody_temporal_noop (rule : Rule) (data : Dataset) (q : String)
    (hcat : rule.category = some "TEMPORAL") (hq : rule.check_sql = some q)
    (habs : data.keys.contains "test_results" = false) :
    checkBody rule data = Except.ok (0, []) := by
  unfold checkBody
  rw [hcat, hq]
  simp only [pyGet, bind, Except.bind, pure, Except.pure]
  rw [if_neg (by decide), if_neg (by decide), if_neg (by decide), if_neg (by decide),
    if_pos trivial]
  simp_all

theorem checkBody_noop_of_required_absent (rule : Rule) (data : Dataset) (cat q tbl : String)
    (hcat : rule.category = some cat) (hq : rule.check_sql = some q)
    (hreq : requiredTable cat q = some tbl)
    (habs : data.keys.contains tbl = false)
    (hexc : ¬(cat = "REFERENTIAL_INTEGRITY" ∧ data.keys.contains "wafer_tests" = true ∧
        data.keys.contains "wafer_batches" = true)) :
    checkBody rule data = Except.ok (0, []) := by
  unfold requiredTable at hreq
  by_cases h1 : cat = "REFERENTIAL_INTEGRITY"
  · subst h1
    have hg : (data.keys.contains "wafer_tests" && data.keys.contains "wafer_batches")
        = false := by
      cases hcw : data.keys.contains "wafer_tests" <;>
        cases hcb : data.keys.contains "wafer_batches" <;> simp_all
    exact checkBody_ref_noop rule data q hcat hq hg
  · rw [if_neg h1] at hreq
    by_cases h2 : cat = "RANGE"
    · subst h2
      rw [if_pos rfl] at hreq
      exact checkBody_range_noop rule data q tbl hcat hq hreq habs
    · rw [if_neg h2] at hreq
      by_cases h3 : cat = "COMPLETENESS"
      · subst h3
        rw [if_pos rfl] at hreq
        exact checkBody_completeness_noop rule data q tbl hcat hq hreq habs
      · rw [if_neg h3] at hreq
        by_cases h4 : cat = "UNIQUENESS"
        · subst h4
          rw [if_pos rfl] at hreq
          have htbl : tbl = "test_results" := by
            split at hreq
            · cases hreq; rfl
            · cases hreq
          exact checkBody_uniqueness_noop rule data q hcat hq (htbl ▸ habs)
        · rw [if_neg h4] at hreq
          by_cases h5 : cat = "TEMPORAL"
          · subst h5
            rw [if_pos rfl] at hreq
            cases hreq
            exact checkBody_temporal_noop rule data q hcat hq habs
          · rw [if_neg h5] at hreq
            cases hreq

theorem checkBody_referential_missing_tests (rule : Rule) (data : Dataset) (q : String)
    (hcat : rule.category = some "REFERENTIAL_INTEGRITY") (hq : rule.check_sql = some q)
    (h1 : strIn "wafer_tests" q = true) (h2 : strIn "wafer_batches" q = true)
    (hk1 : data.keys.contains "wafer_tests" = true)
    (hk2 : data.keys.contains "wafer_batches" = true)
    (hk3 : data.keys.contains "test_results" = false) :
    checkBody rule data = Except.error "KeyError: test_results" := by
  unfold checkBody
  rw [hcat, hq]
  simp only [pyGet, bind, Except.bind, pure, Except.pure]
  rw [if_pos trivial]
  simp_all

theorem check_rule_noop (rule : Rule) (data : Dataset)
    (hbody : checkBody rule data = Except.ok (0, []))
    (hrid : rule.rule_id.isSome) (hnm : rule.name.isSome)
    (hcat : rule.category.isSome) (hsev : rule.severity.isSome)
    (hth : 0 ≤ rule.threshold.getD 0) :
    ∃ res, check_rule rule data = Except.ok res ∧
      res.violations = 0 ∧ res.status = "PASS" ∧ res.details = [] := by
  have hx : execute_pandas_check rule data = Except.ok (0, []) := by
    unfold execute_pandas_check
    rw [hbody]
  obtain ⟨rid, hrid'⟩ := Option.isSome_iff_exists.mp hrid
  obtain ⟨nm, hnm'⟩ := Option.isSome_iff_exists.mp hnm
  obtain ⟨cat, hcat'⟩ := Option.isSome_iff_exists.mp hcat
  obtain ⟨sev, hsev'⟩ := Option.isSome_iff_exists.mp hsev
  refine ⟨_, check_rule_closed rule data 0 [] rid nm cat sev hx hrid' hnm' hcat' hsev',
    rfl, ?_, rfl⟩
  show codeStatus 0 (rule.threshold.getD 0) sev = "PASS"
  unfold codeStatus
  rw [if_neg (by omega), if_pos hth]

/-- C2 counterexample: the temperature rule on a nonempty mapping that lacks
`equipment_logs` (its required table) yields violation_count 0 and the PASS
verdict, not the claimed `-1` / ERROR outcome with a diagnostic example. -/
theorem C2_counterexample :
    c2Data.keys.contains "equipment_logs" = false ∧
    check_rule wTempRule c2Data = Except.ok c2Res ∧
    c2Res.violations = 0 ∧ c2Res.status = "PASS" ∧ c2Res.details = [] :=
  ⟨rfl, by rfl, rfl, rfl, rfl⟩

/-- C2 (amended): every rule resolved to a recognized check whose required
table (per `requiredTable`) is absent from the dataset mapping is a silent
no-op — violation_count 0, no examples, verdict PASS for a non-negative
threshold — not `-1` / ERROR; the only `-1` path on an absent table is the
referential-integrity check when the `wafer_tests` and `wafer_batches` guard
keys are present but `test_results` is not, where the `KeyError` is converted
to violation_count `-1` with the single diagnostic entry and status ERROR. -/
theorem C2_amended :
    (∀ (rule : Rule) (data : Dataset) (cat q tbl : String),
      rule.category = some cat → rule.check_sql = some q →
      requiredTable cat q = some tbl →
      data.keys.contains tbl = false →
      ¬(cat = "REFERENTIAL_INTEGRITY" ∧ data.keys.contains "wafer_tests" = true ∧
          data.keys.contains "wafer_batches" = true) →
      rule.rule_id.isSome → rule.name.isSome → rule.severity.isSome →
      0 ≤ rule.threshold.getD 0 →
      checkBody rule data = Except.ok (0, []) ∧
      ∃ res, check_rule rule data = Except.ok res ∧
        res.violations = 0 ∧ res.status = "PASS" ∧ res.details = []) ∧
    (∀ (rule : Rule) (data : Dataset) (q : String),
      rule.category = some "REFERENTIAL_INTEGRITY" → rule.check_sql = some q →
      strIn "wafer_tests" q = true → strIn "wafer_batches" q = true →
      data.keys.contains "wafer_tests" = true →
      data.keys.contains "wafer_batches" = true →
      data.keys.contains "test_results" = false →
      rule.rule_id.isSome → rule.name.isSome → rule.severity.isSome →
      ∃ res, execute_pandas_check rule data =
          Except.ok (-1, ["Error: KeyError: test_results"]) ∧
        check_rule rule data = Except.ok res ∧
        res.violations = -1 ∧ res.status = "ERROR" ∧
        res.details = ["Error: KeyError: test_results"]) := by
  constructor
  · intro rule data cat q tbl hcat hq hreq habs hexc hrid hnm hsev hth
    have hbody := checkBody_noop_of_required_absent rule data cat q tbl hcat hq hreq habs hexc
    exact ⟨hbody, check_rule_noop rule data hbody hrid hnm (by rw [hcat]; rfl) hsev hth⟩
  · intro rule data q hcat hq h1 h2 hk1 hk2 hk3 hrid hnm hsev
    have hbody := checkBody_referential_missing_tests rule data q hcat hq h1 h2 hk1 hk2 hk3
    obtain ⟨rid, hrid'⟩ := Option.isSome_iff_exists.mp hrid
    obtain ⟨nm, hnm'⟩ := Option.isSome_iff_exists.mp hnm
    obtain ⟨sev, hsev'⟩ := Option.isSome_iff_exists.mp hsev
    have hx : execute_pandas_check rule data =
        Except.ok (-1, ["Error: KeyError: test_results"]) := by
      unfold execute_pandas_check
      rw [hbody, hrid']
      rfl
    refine ⟨_, hx, check_rule_closed rule data (-1) ["Error: KeyError: test_results"]
      rid nm "REFERENTIAL_INTEGRITY" sev hx hrid' hnm' hcat hsev', rfl, ?_, rfl⟩
    show codeStatus (-1) (rule.threshold.getD 0) sev = "ERROR"
    unfold codeStatus
    rw [if_pos rfl]

/-- Witness for C2 (amended): the no-op half at the temperature rule on a
mapping that still holds `test_results` but lacks `equipment_logs`; the
`-1` half at the referential rule on a mapping with only the guard keys. -/
theorem C2_amended_witness :
    (checkBody wTempRule c2Data = Except.ok (0, []) ∧
     ∃ res, check_rule wTempRule c2Data = Except.ok res ∧
       res.violations = 0 ∧ res.status = "PASS" ∧ res.details = []) ∧
    (∃ res, execute_pandas_check wRefRule wRefErrData =
        Except.ok (-1, ["Error: KeyError: test_results"]) ∧
      check_rule wRefRule wRefErrData = Except.ok res ∧
      res.violations = -1 ∧ res.status = "ERROR" ∧
      res.details = ["Error: KeyError: test_results"]) :=
  ⟨C2_amended.1 wTempRule c2Data "RANGE"
      "SELECT * FROM equipment_logs WHERE temperature_c < -50 OR temperature_c > 500"
      "equipment_logs" rfl rfl (by decide) (by decide) (by decide) (by decide)
      (by decide) (by decide) (by decide),
   C2_amended.2 wRefRule wRefErrData
      "SELECT t.batch_id FROM wafer_tests t LEFT JOIN wafer_batches b ON t.batch_id = b.batch_id WHERE b.batch_id IS NULL"
      rfl rfl (by decide) (by decide) (by decide) (by decide) (by decide) (by decide)
      (by decide) (by decide)⟩

theorem check_rule_missing_severity (rule : Rule) (data : Dataset)
    (rid nm cat : String)
    (hrid : rule.rule_id = some rid) (hnm : rule.name = some nm)
    (hcat : rule.category = some cat) (hsev : rule.severity = none) :
    check_rule rule data = Except.error "KeyError: severity" := by
  obtain ⟨v, d, hx⟩ := execute_total rule data (by rw [hrid]; rfl)
  unfold check_rule
  rw [hx]
  simp only [pyGet, hrid, hnm, hcat, hsev, bind, Except.bind, pure, Except.pure]
  split
  · rfl
  · split
    · rfl
    · rfl

/-- C3 counterexample: a catalog containing a rule record with no `severity`
field does not abort the run at all when that rule is outside the requested
layer — `run_checks` completes and returns the well-formed rule's verdict, so
no ConfigError aborts the run before checks execute. -/
theorem C3_counterexample :
    c3Bad.severity = none ∧
    run_checks [wTempRule, c3Bad] "raw" wLogsData = Except.ok (some [wTempRes]) :=
  ⟨rfl, by rfl⟩

theorem execute_error_inv (rule : Rule) (data : Dataset) (e : String)
    (hx : execute_pandas_check rule data = Except.error e) :
    rule.rule_id = none ∧ e = "KeyError: rule_id" := by
  unfold execute_pandas_check at hx
  cases hb : checkBody rule data <;> rw [hb] at hx
  case ok r => cases hx
  case error e' =>
    cases hr : rule.rule_id <;> rw [hr] at hx
    · cases hx
      exact ⟨rfl, rfl⟩
    · cases hx

theorem check_rule_missing_field (rule : Rule) (data : Dataset)
    (hmiss : ¬(rule.rule_id.isSome ∧ rule.name.isSome ∧
        rule.category.isSome ∧ rule.severity.isSome)) :
    ∃ k, check_rule rule data = Except.error ("KeyError: " ++ k) ∧
      ((k = "rule_id" ∧ rule.rule_id = none) ∨ (k = "name" ∧ rule.name = none) ∨
       (k = "category" ∧ rule.category = none) ∨
       (k = "severity" ∧ rule.severity = none)) := by
  cases hx : execute_pandas_check rule data with
  | error e =>
    obtain ⟨hrid, he⟩ := execute_error_inv rule data e hx
    refine ⟨"rule_id", ?_, Or.inl ⟨rfl, hrid⟩⟩
    unfold check_rule
    rw [hx, he]
    rfl
  | ok vd =>
    obtain ⟨v, d⟩ := vd
    unfold check_rule
    rw [hx]
    cases hrid : rule.rule_id <;> cases hnm : rule.name <;>
      cases hcat : rule.category <;> cases hsev : rule.severity <;>
      simp only [hrid, hnm, hcat, hsev, pyGet, bind, Except.bind, pure, Except.pure] <;>
      first
        | ((repeat' split) <;>
           first
             | exact ⟨"rule_id", rfl, Or.inl ⟨rfl, trivial⟩⟩
             | exact ⟨"name", rfl, Or.inr (Or.inl ⟨rfl, trivial⟩)⟩
             | exact ⟨"category", rfl, Or.inr (Or.inr (Or.inl ⟨rfl, trivial⟩))⟩
             | exact ⟨"severity", rfl, Or.inr (Or.inr (Or.inr ⟨rfl, trivial⟩))⟩)
        | exact absurd ⟨by simp [hrid], by simp [hnm], by simp [hcat], by simp [hsev]⟩ hmiss

theorem run_checks_loop_total_applicable (layer : String) (data : Dataset)
    (rules : List Rule)
    (hfields : ∀ r ∈ rules, strIn layer (r.layer.getD "staging") = true →
      r.rule_id.isSome ∧ r.name.isSome ∧ r.category.isSome ∧ r.severity.isSome) :
    ∃ results, run_checks_loop layer data rules = Except.ok results ∧
      results.length = (rules.filter (fun r => strIn layer (r.layer.getD "staging"))).length := by
  induction rules with
  | nil => exact ⟨[], rfl, rfl⟩
  | cons rule rest ih =>
    obtain ⟨results, hres, hlen⟩ :=
      ih (fun r hr hl => hfields r (List.mem_cons_of_mem rule hr) hl)
    by_cases hl : strIn layer (rule.layer.getD "staging") = true
    · obtain ⟨hrid, hnm, hcat, hsev⟩ := hfields rule (List.mem_cons_self rule rest) hl
      obtain ⟨res, hcr⟩ := check_rule_total rule data hrid hnm hcat hsev
      obtain ⟨rid, hrid'⟩ := Option.isSome_iff_exists.mp hrid
      obtain ⟨nm, hnm'⟩ := Option.isSome_iff_exists.mp hnm
      refine ⟨res :: results, ?_, ?_⟩
      · simp only [run_checks_loop, hl, if_true]
        simp [pyGet, hrid', hnm', hcr, hres, bind, Except.bind, pure, Except.pure]
      · simp [List.filter_cons, hl, hlen]
    · refine ⟨results, ?_, ?_⟩
      · simp only [run_checks_loop, hl, if_false]
        exact hres
      · simp [List.filter_cons, hl, hlen]

theorem run_checks_loop_bad_head (layer : String) (data : Dataset) (bad : Rule)
    (post : List Rule)
    (hmiss : ¬(bad.rule_id.isSome ∧ bad.name.isSome ∧
        bad.category.isSome ∧ bad.severity.isSome))
    (hbl : strIn layer (bad.layer.getD "staging") = true) :
    ∃ k, run_checks_loop layer data (bad :: post) = Except.error ("KeyError: " ++ k) ∧
      (k = "rule_id" ∨ k = "name" ∨ k = "category" ∨ k = "severity") := by
  cases hrid : bad.rule_id with
  | none =>
    refine ⟨"rule_id", ?_, Or.inl rfl⟩
    simp only [run_checks_loop, hbl, if_true, pyGet, hrid, bind, Except.bind]
  | some rid =>
    cases hnm : bad.name with
    | none =>
      refine ⟨"name", ?_, Or.inr (Or.inl rfl)⟩
      simp only [run_checks_loop, hbl, if_true, pyGet, hrid, hnm,
        bind, Except.bind, pure, Except.pure]
    | some nm =>
      obtain ⟨k, hcr, hk⟩ := check_rule_missing_field bad data hmiss
      refine ⟨k, ?_, ?_⟩
      · simp only [run_checks_loop, hbl, if_true, pyGet, hrid, hnm,
          bind, Except.bind, pure, Except.pure, hcr]
      · rcases hk with ⟨h, _⟩ | ⟨h, _⟩ | ⟨h, _⟩ | ⟨h, _⟩ <;> simp [h]

theorem run_checks_loop_append_error (layer : String) (data : Dataset)
    (pre rest : List Rule) (e : String)
    (hfields : ∀ r ∈ pre,
      r.rule_id.isSome ∧ r.name.isSome ∧ r.category.isSome ∧ r.severity.isSome)
    (herr : run_checks_loop layer data rest = Except.error e) :
    run_checks_loop layer data (pre ++ rest) = Except.error e := by
  induction pre with
  | nil => simpa using herr
  | cons rule pre' ih =>
    have ih' := ih (fun r hr => hfields r (List.mem_cons_of_mem rule hr))
    by_cases hl : strIn layer (rule.layer.getD "staging") = true
    · obtain ⟨hrid, hnm, hcat, hsev⟩ := hfields rule (List.mem_cons_self rule pre')
      obtain ⟨res, hcr⟩ := check_rule_total rule data hrid hnm hcat hsev
      obtain ⟨rid, hrid'⟩ := Option.isSome_iff_exists.mp hrid
      obtain ⟨nm, hnm'⟩ := Option.isSome_iff_exists.mp hnm
      simp only [List.cons_append, run_checks_loop, hl, if_true]
      simp [pyGet, hrid', hnm', hcr, ih', bind, Except.bind, pure, Except.pure]
    · simp only [List.cons_append, run_checks_loop, hl, if_false]
      exact ih'

/-- C3 (amended): no validation happens at load time and no ConfigError
exists.  A rule record missing any of `{rule_id, name, category, severity}`
raises an uncaught `KeyError` naming a missing field when (and only when)
that rule is evaluated for the requested layer: the run aborts at that rule,
after every earlier applicable rule's check has executed and produced a
verdict; and a catalog whose malformed records all fall outside the requested
layer never aborts — the run completes with one verdict per applicable
rule. -/
theorem C3_amended :
    (∀ (rule : Rule) (data : Dataset),
      ¬(rule.rule_id.isSome ∧ rule.name.isSome ∧
          rule.category.isSome ∧ rule.severity.isSome) →
      ∃ k, check_rule rule data = Except.error ("KeyError: " ++ k) ∧
        ((k = "rule_id" ∧ rule.rule_id = none) ∨ (k = "name" ∧ rule.name = none) ∨
         (k = "category" ∧ rule.category = none) ∨
         (k = "severity" ∧ rule.severity = none))) ∧
    (∀ (pre post : List Rule) (bad : Rule) (layer : String) (data : Dataset),
      (∀ r ∈ pre,
        r.rule_id.isSome ∧ r.name.isSome ∧ r.category.isSome ∧ r.severity.isSome) →
      ¬(bad.rule_id.isSome ∧ bad.name.isSome ∧
          bad.category.isSome ∧ bad.severity.isSome) →
      strIn layer (bad.layer.getD "staging") = true →
      data.keys.isEmpty = false →
      ∃ results k, run_checks_loop layer data pre = Except.ok results ∧
        results.length = (pre.filter (fun r => strIn layer (r.layer.getD "staging"))).length ∧
        run_checks (pre ++ bad :: post) layer data = Except.error ("KeyError: " ++ k) ∧
        (k = "rule_id" ∨ k = "name" ∨ k = "category" ∨ k = "severity")) ∧
    (∀ (rules : List Rule) (layer : String) (data : Dataset),
      (∀ r ∈ rules, strIn layer (r.layer.getD "staging") = true →
        r.rule_id.isSome ∧ r.name.isSome ∧ r.category.isSome ∧ r.severity.isSome) →
      data.keys.isEmpty = false →
      ∃ results, run_checks rules layer data = Except.ok (some results) ∧
        results.length = (rules.filter (fun r => strIn layer (r.layer.getD "staging"))).length) := by
  refine ⟨check_rule_missing_field, ?_, ?_⟩
  · intro pre post bad layer data hpre hmiss hbl hk
    obtain ⟨results, hres, hlen⟩ := run_checks_loop_total layer data pre hpre
    obtain ⟨k, herr, hkk⟩ := run_checks_loop_bad_head layer data bad post hmiss hbl
    refine ⟨results, k, hres, hlen, ?_, hkk⟩
    unfold run_checks
    rw [hk]
    rw [run_checks_loop_append_error layer data pre (bad :: post) _ hpre herr]
    rfl
  · intro rules layer data hfields hk
    obtain ⟨results, hres, hlen⟩ := run_checks_loop_total_applicable layer data rules hfields
    refine ⟨results, ?_, hlen⟩
    unfold run_checks
    rw [hk]
    simp [hres, Except.map]

/-- Witness for C3 (amended): the malformed no-severity rule fails with its
`KeyError` when evaluated; placed after the temperature rule in layer `raw`
it aborts the run after that rule's verdict; scoped to `curated` instead, the
same run completes with the temperature rule's single verdict. -/
theorem C3_amended_witness :
    (∃ k, check_rule c3Bad wLogsData = Except.error ("KeyError: " ++ k) ∧
      ((k = "rule_id" ∧ c3Bad.rule_id = none) ∨ (k = "name" ∧ c3Bad.name = none) ∨
       (k = "category" ∧ c3Bad.category = none) ∨
       (k = "severity" ∧ c3Bad.severity = none))) ∧
    (∃ results k, run_checks_loop "raw" wLogsData [wTempRule] = Except.ok results ∧
      results.length =
        ([wTempRule].filter (fun r => strIn "raw" (r.layer.getD "staging"))).length ∧
      run_checks ([wTempRule] ++ c3Bad2 :: []) "raw" wLogsData =
        Except.error ("KeyError: " ++ k) ∧
      (k = "rule_id" ∨ k = "name" ∨ k = "category" ∨ k = "severity")) ∧
    (∃ results, run_checks [wTempRule, c3Bad] "raw" wLogsData = Except.ok (some results) ∧
      results.length =
        ([wTempRule, c3Bad].filter (fun r => strIn "raw" (r.layer.getD "staging"))).length) :=
  ⟨C3_amended.1 c3Bad wLogsData (by decide),
   C3_amended.2.1 [wTempRule] [] c3Bad2 "raw" wLogsData (by decide) (by decide)
     (by decide) (by decide),
   C3_amended.2.2 [wTempRule, c3Bad] "raw" wLogsData (by decide) (by decide)⟩



theorem passfail_filter_split (l : List TestRow) :
    (l.filter (fun t => !([some "PASS", some "FAIL"].contains t.pass_fail))).length
      = (l.filter (fun t => t.pass_fail == none)).length
        + (l.filter (fun t => !(t.pass_fail == none)
            && !(t.pass_fail == some "PASS") && !(t.pass_fail == some "FAIL"))).length := by
  induction l with
  | nil => rfl
  | cons x xs ih =>
    cases hx : x.pass_fail with
    | none =>
      simp [List.filter_cons, hx] at ih ⊢
      omega
    | some s =>
      by_cases h1 : s = "PASS"
      · simp [List.filter_cons, hx, h1] at ih ⊢
        omega
      · by_cases h2 : s = "FAIL"
        · simp [List.filter_cons, hx, h1, h2] at ih ⊢
          omega
        · simp [List.filter_cons, hx, h1, h2] at ih ⊢
          omega

/-- C5 counterexample: on a `test_results` table with exactly 3 null
`pass_fail` rows and 2 `MAYBE` rows (all others PASS or FAIL), the
completeness check returns violation_count 8, not the claimed 5 — null rows
are counted by both summands of the check. -/
theorem C5_counterexample :
    (c5Tests.filter (fun t => t.pass_fail == none)).length = 3 ∧
    (c5Tests.filter (fun t => t.pass_fail == some "MAYBE")).length = 2 ∧
    (∀ t ∈ c5Tests, t.pass_fail = none ∨ t.pass_fail = some "MAYBE" ∨
      t.pass_fail = some "PASS" ∨ t.pass_fail = some "FAIL") ∧
    checkBody c5Rule c5Data = Except.ok (8, []) :=
  ⟨rfl, rfl, by decide, by rfl⟩

/-- C5 (amended): the completeness check on `pass_fail` counts every null row
twice — `isna` plus membership failure of NaN in `{PASS, FAIL}` — so its
violation count is twice the null count plus the count of non-null values
outside `{PASS, FAIL}`; for 3 nulls and 2 `MAYBE` rows that is 8, not 5. -/
theorem C5_amended (rule : Rule) (data : Dataset) (q : String) (a b : ℕ)
    (hcat : rule.category = some "COMPLETENESS") (hq : rule.check_sql = some q)
    (h1 : strIn "wafer_id" q = false) (h2 : strIn "equipment_id" q = false)
    (h3 : strIn "pass_fail" q = true)
    (hk : data.keys.contains "test_results" = true)
    (ha : (data.test_results.filter (fun t => t.pass_fail == none)).length = a)
    (hb : (data.test_results.filter (fun t => !(t.pass_fail == none)
        && !(t.pass_fail == some "PASS") && !(t.pass_fail == some "FAIL"))).length = b) :
    checkBody rule data = Except.ok (((2 * a + b : ℕ) : Int), []) := by
  rw [checkBody_passfail rule data q hcat hq h1 h2 h3 hk]
  rw [passfail_filter_split, ha, hb]
  have h : a + (a + b) = 2 * a + b := by omega
  rw [h]

/-- Witness for C5 (amended) on the 3-null / 2-MAYBE fixture: 2·3 + 2 = 8. -/
theorem C5_amended_witness :
    checkBody c5Rule c5Data = Except.ok (((2 * 3 + 2 : ℕ) : Int), []) :=
  C5_amended c5Rule c5Data
    "SELECT count(1) FROM test_results WHERE pass_fail IS NULL" 3 2
    rfl rfl (by decide) (by decide) (by decide) (by decide) (by decide) (by decide)

/-- C6: the RANGE temperature check counts exactly the rows with
`temperature_c < -50` or `> 500` — the boundary values −50 and 500 are not
violations while −50.000001 and 500.000001 are — and collects the distinct
equipment ids of offending rows capped at 10. -/
theorem C6_temperature_range (rule : Rule) (data : Dataset) (q : String)
    (hcat : rule.category = some "RANGE") (hq : rule.check_sql = some q)
    (h1 : strIn "yield_pct" q = false) (h2 : strIn "defect_density" q = false)
    (h3 : strIn "temperature" q = true)
    (hk : data.keys.contains "equipment_logs" = true) :
    checkBody rule data = Except.ok
      (((data.equipment_logs.filter (fun r => tempOutOfRange r.temperature_c)).length : Int),
       (uniqueFirst ((data.equipment_logs.filter (fun r => tempOutOfRange r.temperature_c)).map
          (fun r => idStr r.equipment_id))).take 10) ∧
    tempOutOfRange (-50) = false ∧ tempOutOfRange 500 = false ∧
    tempOutOfRange (-50 - 1 / 1000000) = true ∧
    tempOutOfRange (500 + 1 / 1000000) = true := by
  refine ⟨checkBody_temperature rule data q hcat hq h1 h2 h3 hk, ?_, ?_, ?_, ?_⟩ <;>
    norm_num [tempOutOfRange]

/-- Witness for C6: the temperature rule on the four-row boundary fixture. -/
theorem C6_temperature_range_witness :
    checkBody wTempRule wLogsData = Except.ok
      (((wLogsData.equipment_logs.filter (fun r => tempOutOfRange r.temperature_c)).length : Int),
       (uniqueFirst ((wLogsData.equipment_logs.filter (fun r => tempOutOfRange r.temperature_c)).map
          (fun r => idStr r.equipment_id))).take 10) ∧
    tempOutOfRange (-50) = false ∧ tempOutOfRange 500 = false ∧
    tempOutOfRange (-50 - 1 / 1000000) = true ∧
    tempOutOfRange (500 + 1 / 1000000) = true :=
  C6_temperature_range wTempRule wLogsData
    "SELECT * FROM equipment_logs WHERE temperature_c < -50 OR temperature_c > 500"
    rfl rfl (by decide) (by decide) (by decide) (by decide)



theorem unmatched_pred_eq (batches : List BatchRow) (t : TestRow) :
    (!(batches.any (fun b => b.batch_id == t.batch_id)))
      = decide (t.batch_id ∉ batches.map BatchRow.batch_id) := by
  by_cases hmem : t.batch_id ∈ batches.map BatchRow.batch_id
  · obtain ⟨b, hb, hbe⟩ := List.mem_map.mp hmem
    have : batches.any (fun b => b.batch_id == t.batch_id) = true :=
      List.any_eq_true.mpr ⟨b, hb, by simp [hbe]⟩
    simp [this, hmem]
  · have : batches.any (fun b => b.batch_id == t.batch_id) = false := by
      rw [List.any_eq_false]
      intro b hb
      simp only [beq_iff_eq]
      intro hbe
      exact hmem (List.mem_map.mpr ⟨b, hb, hbe⟩)
    simp [this, hmem]

/-- C8: a REFERENTIAL_INTEGRITY rule whose descriptor mentions `wafer_tests`
and `wafer_batches` runs against the table named `test_results`: it counts
the rows of `test_results` whose `batch_id` matches no `wafer_batches` row
(left-outer mismatch) and collects the distinct unmatched batch ids capped
at 10. -/
theorem C8_referential_aliasing (rule : Rule) (data : Dataset) (q : String)
    (hcat : rule.category = some "REFERENTIAL_INTEGRITY") (hq : rule.check_sql = some q)
    (h1 : strIn "wafer_tests" q = true) (h2 : strIn "wafer_batches" q = true)
    (hk1 : data.keys.contains "wafer_tests" = true)
    (hk2 : data.keys.contains "wafer_batches" = true)
    (hk3 : data.keys.contains "test_results" = true) :
    checkBody rule data = Except.ok
      (((data.test_results.filter (fun t =>
          decide (t.batch_id ∉ data.wafer_batches.map BatchRow.batch_id))).length : Int),
       (uniqueFirst ((data.test_results.filter (fun t =>
          decide (t.batch_id ∉ data.wafer_batches.map BatchRow.batch_id))).map
            (·.batch_id))).take 10) := by
  rw [checkBody_referential rule data q hcat hq h1 h2 hk1 hk2 hk3]
  rw [show (fun t : TestRow => !(data.wafer_batches.any (fun b => b.batch_id == t.batch_id)))
        = (fun t : TestRow => decide (t.batch_id ∉ data.wafer_batches.map BatchRow.batch_id))
      from funext (unmatched_pred_eq data.wafer_batches)]

/-- Witness for C8: three of four test rows reference batches missing from
`wafer_batches`; the check reports 3 violations with the two distinct
unmatched batch ids. -/
theorem C8_referential_aliasing_witness :
    checkBody wRefRule c8Data = Except.ok
      (((c8Data.test_results.filter (fun t =>
          decide (t.batch_id ∉ c8Data.wafer_batches.map BatchRow.batch_id))).length : Int),
       (uniqueFirst ((c8Data.test_results.filter (fun t =>
          decide (t.batch_id ∉ c8Data.wafer_batches.map BatchRow.batch_id))).map
            (·.batch_id))).take 10) :=
  C8_referential_aliasing wRefRule c8Data
    "SELECT t.batch_id FROM wafer_tests t LEFT JOIN wafer_batches b ON t.batch_id = b.batch_id WHERE b.batch_id IS NULL"
    rfl rfl (by decide) (by decide) (by decide) (by decide) (by decide)

theorem batchYield_nonneg (tests : List TestRow) (b : String) :
    0 ≤ batchYield tests b := by
  unfold batchYield
  have h100 : (0 : ℚ) ≤ 100 := by norm_num
  exact mul_nonneg (div_nonneg (Nat.cast_nonneg _) (Nat.cast_nonneg _)) h100

theorem batchYield_le (tests : List TestRow) (b : String) :
    batchYield tests b ≤ 100 := by
  unfold batchYield
  set grp := tests.filter (fun t => t.batch_id == b) with hgrp
  rcases Nat.eq_zero_or_pos grp.length with hn | hn
  · rw [List.length_eq_zero] at hn
    simp [hn]
  · have hcn : ((grp.filter (fun t => t.pass_fail == some "PASS")).length : ℚ)
        ≤ (grp.length : ℚ) := by
      exact_mod_cast List.length_filter_le _ grp
    have hpos : (0 : ℚ) < (grp.length : ℚ) := by exact_mod_cast hn
    have hdiv : ((grp.filter (fun t => t.pass_fail == some "PASS")).length : ℚ)
        / (grp.length : ℚ) ≤ 1 := (div_le_one hpos).mpr hcn
    calc ((grp.filter (fun t => t.pass_fail == some "PASS")).length : ℚ)
          / (grp.length : ℚ) * 100
        ≤ 1 * 100 := by
          exact mul_le_mul_of_nonneg_right hdiv (by norm_num)
      _ = 100 := by norm_num

/-- C10: the batch-yield RANGE check can never flag a violation — every
per-batch yield `(PASS count / total) * 100` lies in `[0, 100]`, so the check
always returns violation_count 0 with no examples, and the verdict is PASS
for any rule with a non-negative threshold. -/
theorem C10_yield_unreachable (rule : Rule) (data : Dataset) (q : String)
    (hcat : rule.category = some "RANGE") (hq : rule.check_sql = some q)
    (hy : strIn "yield_pct" q = true)
    (hk : data.keys.contains "test_results" = true)
    (hrid : rule.rule_id.isSome) (hnm : rule.name.isSome) (hsev : rule.severity.isSome)
    (hth : 0 ≤ rule.threshold.getD 0) :
    checkBody rule data = Except.ok (0, []) ∧
    ∃ res, check_rule rule data = Except.ok res ∧
      res.violations = 0 ∧ res.status = "PASS" ∧ res.details = [] := by
  have hempty : ((sortBy (fun a b => decide (a ≤ b))
        (uniqueFirst (data.test_results.map (·.batch_id)))).filter
      (fun b => decide (batchYield data.test_results b < 0) ||
        decide (batchYield data.test_results b > 100))) = [] := by
    rw [List.filter_eq_nil_iff]
    intro b _
    have h0 := batchYield_nonneg data.test_results b
    have h1 := batchYield_le data.test_results b
    simp only [Bool.or_eq_true, decide_eq_true_eq, not_or]
    exact ⟨not_lt.mpr h0, not_lt.mpr h1⟩
  have hbody : checkBody rule data = Except.ok (0, []) := by
    rw [checkBody_yield rule data q hcat hq hy hk, hempty]
    rfl
  exact ⟨hbody, check_rule_noop rule data hbody hrid hnm (by rw [hcat]; rfl) hsev hth⟩

/-- Witness for C10: the yield rule on the eight-row `test_results` fixture
(mixed PASS/FAIL/null values) still reports zero violations and PASS. -/
theorem C10_yield_unreachable_witness :
    checkBody c10Rule c5Data = Except.ok (0, []) ∧
    ∃ res, check_rule c10Rule c5Data = Except.ok res ∧
      res.violations = 0 ∧ res.status = "PASS" ∧ res.details = [] :=
  C10_yield_unreachable c10Rule c5Data
    "SELECT batch_id FROM batch_yield WHERE yield_pct < 0 OR yield_pct > 100"
    rfl rfl (by decide) (by decide) (by decide) (by decide) (by decide) (by decide)



theorem checkBody_details_le (rule : Rule) (data : Dataset) (v : Int) (d : List String)
    (h : checkBody rule data = Except.ok (v, d)) : d.length ≤ 10 := by
  unfold checkBody at h
  cases hcat : rule.category <;> cases hq : rule.check_sql <;> cases hnm : rule.name <;>
    simp only [hcat, hq, hnm, pyGet, bind, Except.bind, pure, Except.pure] at h <;>
    (repeat' split at h) <;>
    (try cases h) <;>
    simp_all [List.length_take]

theorem execute_details_le (rule : Rule) (data : Dataset) (v : Int) (d : List String)
    (h : execute_pandas_check rule data = Except.ok (v, d)) : d.length ≤ 10 := by
  unfold execute_pandas_check at h
  cases hx : checkBody rule data with
  | ok r =>
    rw [hx] at h
    cases h
    exact checkBody_details_le rule data v d hx
  | error e =>
    rw [hx] at h
    cases hrid : rule.rule_id <;> rw [hrid] at h
    · cases h
    · cases h
      simp


/-- C9 (amended): every verdict's `examples` field is the first 5 of the
internally collected example list, which holds at most 10 entries (the first
10 collected values; only the checks that deduplicate make them distinct). -/
theorem C9_amended (rule : Rule) (data : Dataset) (res : RuleResult)
    (h : check_rule rule data = Except.ok res) :
    ∃ v d, execute_pandas_check rule data = Except.ok (v, d) ∧
      d.length ≤ 10 ∧ res.details = d.take 5 ∧ res.violations = v := by
  obtain ⟨v, d, rid, nm, cat, sev, hx, hrid, hnm, hcat, hsev, hres⟩ :=
    check_rule_inv rule data res h
  subst hres
  refine ⟨v, d, hx, execute_details_le rule data v d hx, ?_, rfl⟩
  show (if d.isEmpty then [] else d.take 5) = d.take 5
  cases d <;> simp

/-- Witness for C9 (amended): the defect-density fixture with 12 violating
rows; the collected list has 10 entries and the verdict keeps its first 5. -/
theorem C9_amended_witness :
    ∃ v d, execute_pandas_check c9Rule c9Data = Except.ok (v, d) ∧
      d.length ≤ 10 ∧ c9Res.details = d.take 5 ∧ c9Res.violations = v :=
  C9_amended c9Rule c9Data c9Res (by rfl)

/-- C9 counterexample: with 12 violating records the defect-density check's
internal collection holds 10 entries that are not distinct (the check does
not deduplicate wafer ids), refuting "exactly 10 distinct entries". -/
theorem C9_counterexample :
    execute_pandas_check c9Rule c9Data = Except.ok (12, c9Details) ∧
    c9Details.length = 10 ∧ ¬ c9Details.Nodup :=
  ⟨by rfl, rfl, by decide⟩


end DQ
